import Mathlib

/-!
Verification development for the docker-explorer storage layer
(`docker_explorer/lib/storage.py`).

The Python module is shallowly embedded below.  The on-disk state read by the
code is modelled by the structure `DockerExplorer.DockerFS`: one field per
family of files the code opens, keyed by the identifiers from which the code
builds the corresponding paths.  Python exceptions are modelled by the
`DockerExplorer.PyError` type and fallible operations return `Except PyError`.
Path manipulation helpers (`os.path.join`, `os.path.normpath`, `str.lstrip`,
`str.strip`, `str.split`) are reimplemented character by character so that all
definitions are executable and kernel-reducible.

Modelling conventions, stated once here:
* JSON dictionaries are modelled by structures holding exactly the keys the
  code reads; `none` for a key models an absent key (JSON `null` values and
  unread keys are outside the modelled input domain).  A `Config` or `State`
  value of `none` also covers a present-but-empty dictionary, which the code
  treats identically to an absent one (`if json_config:` is false for both).
* Attributes that `ContainerInfo.__init__` assigns only conditionally are
  modelled as `Option` fields whose `none` value means "attribute was never
  set"; reading such a field through `getAttr` models Python attribute lookup,
  which raises `AttributeError` when the attribute was never assigned.
* `os.path.abspath` is modelled as path normalisation only: the current
  working directory is not part of the model, and every path the code passes
  to `abspath` in the modelled scenarios is absolute, where the two agree.
* The unbounded `while` loop of `GetOrderedLayers` is modelled with a fuel
  parameter; returning `PyError.fuelExhausted` for every fuel value proves
  that the Python loop never terminates on that input.
-/

namespace DockerExplorer

/-! ## Python string and path primitives -/

/-- Python `str.split(sep)` for a one-character separator, on the character
list of the string: splits at every occurrence of `sep`, keeping empty
components, so that the empty string yields `[[]]`. -/
def splitCharList (sep : Char) : List Char → List (List Char)
  | [] => [[]]
  | c :: rest =>
    match splitCharList sep rest with
    | h :: t => if c = sep then [] :: h :: t else (c :: h) :: t
    | [] => [[c]]

/-- Python `s.split(sep)` for a one-character separator `sep`. -/
def pySplit (s : String) (sep : Char) : List String :=
  (splitCharList sep s.data).map List.asString

/-- Python `s.lstrip(os.path.sep)`: drop every leading slash. -/
def lstripSlash (s : String) : String :=
  (s.data.dropWhile (fun c => c = '/')).asString

/-- Python `s.strip()`: drop leading and trailing whitespace. -/
def pyStrip (s : String) : String :=
  (((s.data.dropWhile Char.isWhitespace).reverse.dropWhile Char.isWhitespace).reverse).asString

/-- Python `s.startswith(os.path.sep)`. -/
def headIsSlash (s : String) : Bool := s.data.head? = some '/'

/-- Python `s.endswith(os.path.sep)`. -/
def lastIsSlash (s : String) : Bool := s.data.getLast? = some '/'

/-- Two-argument `posixpath.join`: an absolute second argument replaces the
first; otherwise the two are concatenated, inserting a slash unless the first
argument is empty or already ends with one. -/
def pyJoin (a b : String) : String :=
  if headIsSlash b then b
  else if a = "" ∨ lastIsSlash a then a ++ b
  else a ++ "/" ++ b

/-- Python `os.path.join(a, p₁, ..., pₙ)` as a left fold of two-argument joins. -/
def pyJoinList (a : String) (ps : List String) : String := ps.foldl pyJoin a

/-- Component processing loop of `posixpath.normpath`: skip empty and `"."`
components; `".."` pops the last kept component unless there is none (in
which case it is kept for relative paths and dropped for absolute ones) or
the last kept component is itself `".."`. -/
def normParts (absRoot : Bool) : List String → List String → List String
  | acc, [] => acc.reverse
  | acc, comp :: rest =>
    if comp = "" ∨ comp = "." then normParts absRoot acc rest
    else if comp ≠ ".." ∨ (absRoot = false ∧ acc = []) ∨ acc.head? = some ".." then
      normParts absRoot (comp :: acc) rest
    else
      match acc with
      | _ :: tl => normParts absRoot tl rest
      | [] => normParts absRoot acc rest

/-- Python `posixpath.normpath`, including the POSIX double-slash special case. -/
def pyNormpath (p : String) : String :=
  if p = "" then "."
  else
    let d := p.data
    let slashes : Nat :=
      if d.head? = some '/' then
        if (d.drop 1).head? = some '/' ∧ (d.drop 2).head? ≠ some '/' then 2 else 1
      else 0
    let comps := normParts (slashes ≠ 0) [] (pySplit p '/')
    let res := (List.replicate slashes '/').asString ++ String.intercalate "/" comps
    if res = "" then "." else res

/-- Python `os.path.abspath` restricted to absolute inputs: pure normalisation.  The
current working directory is not modelled; every call site in the modelled
scenarios passes an absolute path, on which `abspath` and `normpath` agree. -/
def pyAbspath (p : String) : String := pyNormpath p

/-! ## Errors -/

/-- Python-level failures of the storage code.  `ioError` carries the path of
the file whose `open` raised; `valueError` models a failed tuple unpacking of
`str.split`; `unboundLocal` models reading a local variable that was never
assigned; `attributeError` models reading an object attribute that was never
assigned (it carries the attribute name); `unsupportedVersionExit` models the
`print` + `sys.exit(1)` in `Storage.__init__`; `fuelExhausted` is the fuel
marker for the unbounded layer-walk loop. -/
inductive PyError where
  | ioError (path : String)
  | valueError
  | unboundLocal
  | attributeError (attr : String)
  | unsupportedVersionExit
  | fuelExhausted
deriving DecidableEq

/-! ## On-disk JSON data as read by the code -/

/-- One entry of the `MountPoints` mapping of a v2 container config
(`storage_info` in `_MakeExtraVolumeCommands`). -/
structure MountPointInfo where
  Source : String
  Destination : String
  Name : String
deriving DecidableEq

/-- The `Config` sub-dictionary of a container config file. -/
structure ConfigBlock where
  Image : Option String := none
  Labels : Option (List (String × String)) := none
deriving DecidableEq

/-- The `State` sub-dictionary of a container config file. -/
structure StateBlock where
  Running : Option Bool := none
  StartedAt : Option String := none
deriving DecidableEq

/-- A parsed container config file (`config.json` / `config.v2.json`),
restricted to the keys `ContainerInfo.__init__` and `GetOrderedLayers`
read. -/
structure ContainerJson where
  Config : Option ConfigBlock := none
  Created : Option String := none
  Image : Option String := none
  MountPoints : Option (List (String × MountPointInfo)) := none
  Name : Option String := none
  State : Option StateBlock := none
  Volumes : Option (List (String × String)) := none
deriving DecidableEq

/-- A parsed layer descriptor (`graph/<id>/json` for v1, or an
`imagedb/content` entry for v2), restricted to the keys the code reads. -/
structure LayerJson where
  parent : Option String := none
  created : Option String := none
  comment : Option String := none
deriving DecidableEq

/-- The on-disk state visible to the storage code.  Each field models one
family of files, keyed by the identifier from which the code builds the
path:
* `containerDirs` — `os.listdir` of the `containers` directory;
* `containerConfig cid` — the parsed `containers/<cid>/<config filename>`
  file, `none` when the file is absent;
* `graphDirs` — layer ids `lid` for which `graph/<lid>` is a directory;
* `graphJson lid` — the parsed `graph/<lid>/json` descriptor;
* `parentFile hm lid` — the raw content of
  `image/<driver>/imagedb/metadata/<hm>/<lid>/parent`;
* `mountIdFile cid` — the raw content of
  `image/<driver>/layerdb/mounts/<cid>/mount-id`;
* `imagedbContent hm lid` — the parsed `image/<driver>/imagedb/content/<hm>/<lid>`
  descriptor. -/
structure DockerFS where
  containerDirs : List String := []
  containerConfig : String → Option ContainerJson := fun _ => none
  graphDirs : List String := []
  graphJson : String → Option LayerJson := fun _ => none
  parentFile : String → String → Option String := fun _ _ => none
  mountIdFile : String → Option String := fun _ => none
  imagedbContent : String → String → Option LayerJson := fun _ _ => none

/-! ## The Storage object -/

/-- The fields `Storage.__init__` computes.  `storage_method` models the
`STORAGE_METHOD` class attribute contributed by the backend subclass (AuFS,
overlay, ...) selected outside this module. -/
structure Storage where
  docker_version : Nat
  docker_directory : String
  root_directory : String
  containers_directory : String
  container_config_filename : String
  storage_method : String
deriving DecidableEq

/-- Embedding of `Storage.__init__`.  A version outside `{1, 2}` prints an unsupported
version message and calls `sys.exit(1)` before anything else; that failure is
modelled as `PyError.unsupportedVersionExit`.  The constructor takes no
`DockerFS` argument: it performs no file access. -/
def Storage.init (docker_directory : String) (docker_version : Nat)
    (storage_method : String) : Except PyError Storage :=
  if docker_version ≠ 1 ∧ docker_version ≠ 2 then
    .error .unsupportedVersionExit
  else
    .ok { docker_version := docker_version
          docker_directory := docker_directory
          root_directory := pyAbspath (pyJoin docker_directory "..")
          containers_directory := pyJoin docker_directory "containers"
          container_config_filename :=
            if docker_version = 1 then "config.json" else "config.v2.json"
          storage_method := storage_method }

/-- Path of the v1 layer descriptor `graph/<layer>/json`. -/
def Storage.graphJsonPath (st : Storage) (layer : String) : String :=
  pyJoinList st.docker_directory ["graph", layer, "json"]

/-- Path of the v2 mount-id mapping file
`image/<driver>/layerdb/mounts/<cid>/mount-id`. -/
def Storage.mountIdPath (st : Storage) (cid : String) : String :=
  pyJoin (pyJoinList st.docker_directory
    ["image", st.storage_method, "layerdb", "mounts", cid]) "mount-id"

/-- Path of the container config file `containers/<cid>/<config filename>`. -/
def Storage.configPath (st : Storage) (cid : String) : String :=
  pyJoinList st.containers_directory [cid, st.container_config_filename]

/-! ## ContainerInfo -/

/-- The attributes of a `ContainerInfo` object after `__init__` ran on a
parsed config dictionary.  Fields that `__init__` assigns only under an `if`
are `Option`-valued with `none` meaning "never assigned":
`config_image_name` and `config_labels` are only assigned when the `Config`
dictionary is present and non-empty, `running` and `start_timestamp` only
when `State` is.  The inner `Option` of `config_labels` (respectively of
`start_timestamp`) is the result of `.get` on the sub-dictionary: `none`
models the `None` default for `Labels` and the `False` default for
`StartedAt`. -/
structure ContainerInfo where
  container_id : String
  config_image_name : Option (Option String) := none
  config_labels : Option (Option (List (String × String))) := none
  creation_timestamp : Option String := none
  image_id : Option String := none
  mount_points : Option (List (String × MountPointInfo)) := none
  name : String := ""
  running : Option Bool := none
  start_timestamp : Option (Option String) := none
  volumes : Option (List (String × String)) := none
  mount_id : Option String := none
deriving DecidableEq

/-- Embedding of `ContainerInfo.__init__`, applied to an already-parsed config dictionary
(the `open` + `json.load` part is modelled at the call site by
`DockerFS.containerConfig`). -/
def ContainerInfo.ofJson (cid : String) (d : ContainerJson) : ContainerInfo :=
  { container_id := cid
    config_image_name := d.Config.map (fun cb => cb.Image)
    config_labels := d.Config.map (fun cb => cb.Labels)
    creation_timestamp := d.Created
    image_id := d.Image
    mount_points := d.MountPoints
    name := d.Name.getD ""
    running := d.State.map (fun sb => sb.Running.getD false)
    start_timestamp := d.State.map (fun sb => sb.StartedAt)
    volumes := d.Volumes
    mount_id := none }

/-- Python attribute lookup on a conditionally-assigned attribute: raises
`AttributeError` when the attribute was never set. -/
def getAttr {α : Type} (x : Option α) (attr : String) : Except PyError α :=
  match x with
  | some v => .ok v
  | none => .error (.attributeError attr)

/-! ## Storage methods -/

/-- Embedding of `Storage.GetContainerInfo`.  The config file is read only when present
(`if os.path.isfile(...)`); the branch for an absent file is missing in the
source, so for version 2 the method then still opens the mount-id file
(raising `IOError` with that path when it is absent too), and any later use
of the never-assigned `container_info` local raises `UnboundLocalError`.  For
version 2 with a config present, the mount-id file is opened
unconditionally. -/
def GetContainerInfo (st : Storage) (fs : DockerFS) (cid : String) :
    Except PyError ContainerInfo :=
  match fs.containerConfig cid with
  | some cfg =>
    let ci := ContainerInfo.ofJson cid cfg
    if st.docker_version = 2 then
      match fs.mountIdFile cid with
      | none => .error (.ioError (st.mountIdPath cid))
      | some content => .ok { ci with mount_id := some content }
    else .ok ci
  | none =>
    if st.docker_version = 2 then
      match fs.mountIdFile cid with
      | none => .error (.ioError (st.mountIdPath cid))
      | some _ => .error .unboundLocal
    else .error .unboundLocal

/-- The `while current_layer is not None` loop of `Storage.GetOrderedLayers`,
with fuel.  Version 1 opens `graph/<layer>/json` (raising `IOError` when the
file is absent) and follows its `parent` field; version 2 unpacks the layer
id with `split(':')` (raising `ValueError` unless the split has exactly two
components), then `break`s when the parent pointer file is absent, else
continues with the stripped file content.  A version outside `{1, 2}` leaves
`current_layer` unchanged, so the loop never exits, exactly as in the
source. -/
def layerLoop (st : Storage) (fs : DockerFS) :
    Nat → Option String → List String → Except PyError (List String)
  | _, none, acc => .ok acc.reverse
  | 0, some _, _ => .error .fuelExhausted
  | fuel + 1, some cur, acc =>
    let acc2 := cur :: acc
    if st.docker_version = 1 then
      match fs.graphJson cur with
      | none => .error (.ioError (st.graphJsonPath cur))
      | some lj => layerLoop st fs fuel lj.parent acc2
    else if st.docker_version = 2 then
      match pySplit cur ':' with
      | [hm, lid] =>
        match fs.parentFile hm lid with
        | none => .ok acc2.reverse
        | some content => layerLoop st fs fuel (some (pyStrip content)) acc2
      | _ => .error .valueError
    else layerLoop st fs fuel (some cur) acc2

/-- Embedding of `Storage.GetOrderedLayers`: the starting layer is the container id itself
when `graph/<cid>` is a directory, else the `Image` field of the container
config (an absent config file yields the empty list); the walk itself is
`layerLoop`. -/
def GetOrderedLayers (st : Storage) (fs : DockerFS) (fuel : Nat)
    (container_id : String) : Except PyError (List String) :=
  if fs.graphDirs.contains container_id then
    layerLoop st fs fuel (some container_id) []
  else
    match fs.containerConfig container_id with
    | none => .ok []
    | some cfg => layerLoop st fs fuel cfg.Image []

/-- Embedding of `Storage.GetLayerInfo`.  Version 1 returns the parsed `graph/<id>/json`
descriptor or `None`; version 2 unpacks the id with `split(':')` (raising
`ValueError` unless exactly two components result) and returns the parsed
`imagedb/content` descriptor or `None`.  Any other version leaves
`layer_info_path` unassigned and the subsequent use raises
`UnboundLocalError`. -/
def GetLayerInfo (st : Storage) (fs : DockerFS) (container_id : String) :
    Except PyError (Option LayerJson) :=
  if st.docker_version = 1 then .ok (fs.graphJson container_id)
  else if st.docker_version = 2 then
    match pySplit container_id ':' with
    | [hm, lid] => .ok (fs.imagedbContent hm lid)
    | _ => .error .valueError
  else .error .unboundLocal

/-- The list comprehension of `GetAllContainersInfo`: load every listed
container, propagating the first exception. -/
def loadAll (st : Storage) (fs : DockerFS) : List String → Except PyError (List ContainerInfo)
  | [] => .ok []
  | cid :: rest => do
    let ci ← GetContainerInfo st fs cid
    let tail ← loadAll st fs rest
    .ok (ci :: tail)

/-- Embedding of `Storage.GetAllContainersInfo`.  When `os.listdir` of the containers
directory is empty, the warning branch evaluates
`print(...).format(...)`, i.e. calls `.format` on `None` (the return value of
`print`), raising `AttributeError` before anything is returned.  Otherwise
every listed container is loaded. -/
def GetAllContainersInfo (st : Storage) (fs : DockerFS) :
    Except PyError (List ContainerInfo) :=
  if fs.containerDirs = [] then .error (.attributeError "format")
  else loadAll st fs fs.containerDirs

/-- Check performed by `sorted(..., key=lambda x: x.start_timestamp)`: the
key is read from every element, raising `AttributeError` on the first
element whose `start_timestamp` attribute was never assigned. -/
def checkStarts : List ContainerInfo → Except PyError Unit
  | [] => .ok ()
  | ci :: rest =>
    match ci.start_timestamp with
    | none => .error (.attributeError "start_timestamp")
    | some _ => checkStarts rest

/-- Sort key of `GetContainersList`: the `start_timestamp` attribute value
(`none` inside the modelled value stands for the Python `False` default,
which CPython 2 orders before every string). -/
def sortKey (ci : ContainerInfo) : Option String := ci.start_timestamp.getD none

/-- Byte-wise lexicographic string order of CPython 2, on character lists. -/
def chLE : List Char → List Char → Bool
  | [], _ => true
  | _ :: _, [] => false
  | a :: as, b :: bs => if a = b then chLE as bs else decide (a < b)

/-- Order on sort keys: the `False` default sorts before every string
(CPython 2 orders numbers before strings), strings byte-wise. -/
def startLE (a b : Option String) : Bool :=
  match a, b with
  | none, _ => true
  | some _, none => false
  | some x, some y => chLE x.data y.data

/-- The comparison relation `sorted` uses in `GetContainersList`. -/
def startRel (a b : ContainerInfo) : Prop := startLE (sortKey a) (sortKey b) = true

instance : DecidableRel startRel :=
  fun a b => instDecidableEqBool (startLE (sortKey a) (sortKey b)) true

/-- The filter comprehension `[x for x in ... if x.running]`: reading the
`running` attribute raises `AttributeError` when it was never assigned. -/
def filterRunning : List ContainerInfo → Except PyError (List ContainerInfo)
  | [] => .ok []
  | ci :: rest => do
    let r ← getAttr ci.running "running"
    let tail ← filterRunning rest
    if r then .ok (ci :: tail) else .ok tail

/-- Embedding of `Storage.GetContainersList`: sort all containers ascending by the
`start_timestamp` attribute (Python `sorted` is a stable ascending sort,
modelled by `List.insertionSort`, which is extensionally the unique stable
sort for this total transitive order), then optionally keep only the running
ones. -/
def GetContainersList (st : Storage) (fs : DockerFS) (only_running : Bool) :
    Except PyError (List ContainerInfo) := do
  let all ← GetAllContainersInfo st fs
  let _ ← checkStarts all
  let sortedAll := List.insertionSort startRel all
  if only_running then filterRunning sortedAll
  else .ok sortedAll

/-- The shell command string the code formats as mount --bind -o ro with the
two paths appended: a read-only bind mount of `src` onto `dst`. -/
def bindMountCommand (src dst : String) : String :=
  "mount --bind -o ro " ++ src ++ " " ++ dst

/-- Docker-root-relative source path of a v2 mount point: the slash-stripped
`Source`, or, when that is empty, the named-volume convention
`docker/volumes/<Name>/_data`. -/
def v2SourcePath (si : MountPointInfo) : String :=
  let s := lstripSlash si.Source
  if s = "" then pyJoinList "docker" ["volumes", si.Name, "_data"] else s

/-- Embedding of the `Storage` method MakeExtraVolumeCommands: one read-only bind-mount command per
declared volume (v1, `(containerPath, hostPath)` pairs) or mount point (v2),
sources made absolute under the engine root directory and destinations under
the mount directory. -/
def MakeExtraVolumeCommands (st : Storage) (ci : ContainerInfo)
    (mount_dir : String) : List String :=
  if st.docker_version = 1 then
    match ci.volumes with
    | some vols => vols.map (fun pr =>
        bindMountCommand (pyJoin st.root_directory (lstripSlash pr.2))
                         (pyJoin mount_dir (lstripSlash pr.1)))
    | none => []
  else if st.docker_version = 2 then
    match ci.mount_points with
    | some mps => mps.map (fun pr =>
        bindMountCommand (pyJoin st.root_directory (v2SourcePath pr.2))
                         (pyJoin mount_dir (lstripSlash pr.2.Destination)))
    | none => []
  else []

/-! ## Concrete fixtures -/

/-- The v1 storage object for the default data directory. -/
def stV1 : Storage :=
  { docker_version := 1
    docker_directory := "/var/lib/docker"
    root_directory := "/var/lib"
    containers_directory := "/var/lib/docker/containers"
    container_config_filename := "config.json"
    storage_method := "aufs" }

/-- The v2 storage object for the default data directory. -/
def stV2 : Storage :=
  { docker_version := 2
    docker_directory := "/var/lib/docker"
    root_directory := "/var/lib"
    containers_directory := "/var/lib/docker/containers"
    container_config_filename := "config.v2.json"
    storage_method := "aufs" }

/-- An entirely empty data directory. -/
def emptyFS : DockerFS := {}

theorem stV1_from_init : Storage.init "/var/lib/docker" 1 "aufs" = .ok stV1 := by
  rfl

theorem stV2_from_init : Storage.init "/var/lib/docker" 2 "aufs" = .ok stV2 := by
  rfl

/-! ## Order lemmas for the sort relation -/

theorem chLE_total : ∀ x y : List Char, chLE x y = true ∨ chLE y x = true := by
  intro x
  induction x with
  | nil => exact fun y => Or.inl rfl
  | cons a as ih =>
    intro y
    cases y with
    | nil => exact Or.inr rfl
    | cons b bs =>
      rcases lt_trichotomy a b with h | h | h
      · left; simp [chLE, h.ne, h]
      · subst h
        rcases ih bs with hh | hh
        · left; simp [chLE, hh]
        · right; simp [chLE, hh]
      · right; simp [chLE, h.ne, h]

theorem chLE_trans :
    ∀ x y z : List Char, chLE x y = true → chLE y z = true → chLE x z = true := by
  intro x
  induction x with
  | nil => intro y z _ _; rfl
  | cons a as ih =>
    intro y z hxy hyz
    cases y with
    | nil => simp [chLE] at hxy
    | cons b bs =>
      cases z with
      | nil => simp [chLE] at hyz
      | cons c cs =>
        by_cases hab : a = b
        · subst hab
          by_cases hbc : a = c
          · subst hbc
            simp only [chLE, if_pos rfl] at hxy hyz ⊢
            exact ih bs cs hxy hyz
          · simp only [chLE, if_neg hbc] at hyz ⊢
            exact hyz
        · simp only [chLE, if_neg hab, decide_eq_true_eq] at hxy
          by_cases hbc : b = c
          · subst hbc
            simp [chLE, hab, hxy]
          · simp only [chLE, if_neg hbc, decide_eq_true_eq] at hyz
            have hac := lt_trans hxy hyz
            simp [chLE, hac.ne, hac]

theorem startLE_total : ∀ a b : Option String, startLE a b = true ∨ startLE b a = true
  | none, _ => Or.inl rfl
  | some _, none => Or.inr rfl
  | some x, some y => chLE_total x.data y.data

theorem startLE_trans : ∀ a b c : Option String,
    startLE a b = true → startLE b c = true → startLE a c = true
  | none, _, _, _, _ => rfl
  | some _, none, _, h, _ => by simp [startLE] at h
  | some _, some _, none, _, h => by simp [startLE] at h
  | some x, some y, some z, h1, h2 => chLE_trans x.data y.data z.data h1 h2

instance : IsTotal ContainerInfo startRel :=
  ⟨fun a b => startLE_total (sortKey a) (sortKey b)⟩

instance : IsTrans ContainerInfo startRel :=
  ⟨fun _ _ _ hab hbc => startLE_trans _ _ _ hab hbc⟩

/-! ## Helper lemmas about the catalog pipeline -/

theorem exceptBind_ok {ε α β : Type} (a : α) (f : α → Except ε β) :
    (Except.ok a >>= f : Except ε β) = f a := rfl

theorem exceptBind_error {ε α β : Type} (e : ε) (f : α → Except ε β) :
    (Except.error e >>= f : Except ε β) = Except.error e := rfl

theorem checkStarts_ok {l : List ContainerInfo}
    (h : ∀ ci ∈ l, ci.start_timestamp.isSome = true) : checkStarts l = .ok () := by
  induction l with
  | nil => rfl
  | cons ci rest ih =>
    have h1 := h ci (List.mem_cons_self ci rest)
    rcases hs : ci.start_timestamp with _ | v
    · rw [hs] at h1; simp at h1
    · simp only [checkStarts, hs]
      exact ih (fun x hx => h x (List.mem_cons_of_mem _ hx))

theorem filterRunning_ok {l : List ContainerInfo}
    (h : ∀ ci ∈ l, ci.running.isSome = true) :
    filterRunning l = .ok (l.filter (fun ci => ci.running.getD false)) := by
  induction l with
  | nil => rfl
  | cons ci rest ih =>
    have h1 := h ci (List.mem_cons_self ci rest)
    rcases hr : ci.running with _ | b
    · rw [hr] at h1; simp at h1
    · have ht := ih (fun x hx => h x (List.mem_cons_of_mem _ hx))
      cases b <;>
        simp [filterRunning, getAttr, hr, ht, List.filter_cons, exceptBind_ok]

/-! ## Claim C6 -/

/-- Claim C6: constructing the storage abstraction with a metadata generation
outside the two supported values fails (with the unsupported-configuration
failure, realised in the source as a printed message plus `sys.exit(1)`), and
the failure is raised at construction time: `Storage.init` takes no `DockerFS`
argument at all, so no file under the data directory can be accessed before
the failure. -/
theorem claim_C6_unsupported_version (d m : String) (v : Nat)
    (h1 : v ≠ 1) (h2 : v ≠ 2) :
    Storage.init d v m = .error .unsupportedVersionExit := by
  simp [Storage.init, h1, h2]

/-- Witness for C6 at version 0. -/
theorem claim_C6_witness :
    (0 : Nat) ≠ 1 ∧ (0 : Nat) ≠ 2 ∧
      Storage.init "/var/lib/docker" 0 "aufs" = .error .unsupportedVersionExit :=
  ⟨by decide, by decide,
   claim_C6_unsupported_version "/var/lib/docker" "aufs" 0 (by decide) (by decide)⟩

/-! ## Claim C10 -/

/-- Claim C10: when the containers directory exists but lists no entries,
`GetAllContainersInfo` does not return an empty catalog: the warning branch
evaluates `print(...).format(...)`, calling `.format` on `None`, which raises
`AttributeError` — listing an empty data directory fails. -/
theorem claim_C10_empty_listing (st : Storage) (fs : DockerFS)
    (h : fs.containerDirs = []) :
    GetAllContainersInfo st fs = .error (.attributeError "format") := by
  simp [GetAllContainersInfo, h]

/-- Witness for C10 on the empty data directory. -/
theorem claim_C10_witness :
    emptyFS.containerDirs = [] ∧
      GetAllContainersInfo stV2 emptyFS = .error (.attributeError "format") :=
  ⟨rfl, claim_C10_empty_listing stV2 emptyFS rfl⟩

/-! ## Claim C2 -/

/-- Claim C2 (code bug): for a container id with no `containers/<id>`
directory, the `if os.path.isfile(...)` guard in `GetContainerInfo` has no
else-branch, so `container_info` is never assigned.  For version 2 the method
then fails with `IOError` naming the mount-id mapping path
`image/<driver>/layerdb/mounts/<id>/mount-id`, not `NotFoundError` naming the
expected config path (third conjunct shows the path the claim expected); for
version 1 it fails with `UnboundLocalError` at `return container_info`. -/
theorem claim_C2_code_behavior :
    GetContainerInfo stV2 emptyFS "c1" =
      .error (.ioError "/var/lib/docker/image/aufs/layerdb/mounts/c1/mount-id") ∧
    GetContainerInfo stV1 emptyFS "c1" = .error .unboundLocal ∧
    stV2.configPath "c1" = "/var/lib/docker/containers/c1/config.v2.json" :=
  ⟨rfl, rfl, rfl⟩

/-! ## Claim C4 -/

/-- A minimal v2 container config. -/
def cfgC4 : ContainerJson := { Name := some "/test" }

/-- A state with `containers/c1/config.v2.json` present but no mount-id
mapping file. -/
def fsC4 : DockerFS :=
  { containerConfig := fun cid => if cid = "c1" then some cfgC4 else none }

/-- Counterexample to claim C4 as stated: for a generation-2 container whose
side mount-id mapping file is absent, loading does not succeed with `mountId`
unset; `GetContainerInfo` opens the mount-id file unconditionally and the
`open` raises `IOError` for that path. -/
theorem claim_C4_counterexample :
    GetContainerInfo stV2 fsC4 "c1" =
      .error (.ioError "/var/lib/docker/image/aufs/layerdb/mounts/c1/mount-id") :=
  rfl

/-- Claim C4 (amended): for every generation-2 container whose config file is
present but whose mount-id mapping file is absent, loading the container
fails with an IO error naming the mount-id path (the absence is not
tolerated; `mount_id` stays unset only transiently, between construction and
the lookup). -/
theorem claim_C4_amended_mount_id (st : Storage) (fs : DockerFS) (cid : String)
    (cfg : ContainerJson) (hv : st.docker_version = 2)
    (hc : fs.containerConfig cid = some cfg) (hm : fs.mountIdFile cid = none) :
    GetContainerInfo st fs cid = .error (.ioError (st.mountIdPath cid)) := by
  simp [GetContainerInfo, hc, hv, hm]

/-- Witness for the amended C4 at a concrete state. -/
theorem claim_C4_witness :
    stV2.docker_version = 2 ∧ fsC4.containerConfig "c1" = some cfgC4 ∧
    fsC4.mountIdFile "c1" = none ∧
    GetContainerInfo stV2 fsC4 "c1" = .error (.ioError (stV2.mountIdPath "c1")) :=
  ⟨rfl, rfl, rfl, claim_C4_amended_mount_id stV2 fsC4 "c1" cfgC4 rfl rfl rfl⟩

/-! ## Claim C5 -/

/-- A config that parses but has no `State` block and no `Labels` key inside
`Config`. -/
def cfgC5 : ContainerJson :=
  { Config := some { Image := some "busybox" }
    Created := some "2016-01-01T00:00:00.000000Z"
    Image := some "img1"
    Name := some "/test" }

/-- A v1 state holding only `containers/c1/config.json` with `cfgC5`. -/
def fsC5 : DockerFS :=
  { containerConfig := fun cid => if cid = "c1" then some cfgC5 else none }

/-- Counterexample to claim C5 as stated: loading a parsed config with no
`State` block succeeds, but the resulting record does not have
`running = false` — the `running` attribute is never assigned at all
(reading it would raise `AttributeError`). -/
theorem claim_C5_counterexample :
    GetContainerInfo stV1 fsC5 "c1" = .ok (ContainerInfo.ofJson "c1" cfgC5) ∧
    (ContainerInfo.ofJson "c1" cfgC5).running ≠ some false ∧
    (ContainerInfo.ofJson "c1" cfgC5).running = none :=
  ⟨rfl, by decide, rfl⟩

/-- Claim C5 (amended): loading a container whose config parses but lacks
optional fields succeeds, and: when the `State` block is absent the `running`
and `start_timestamp` attributes are left unassigned (not defaulted to
`false`); when `Config` is present without `Labels`, the label attribute is
set to the Python `None` default (no labels), not an empty mapping. -/
theorem claim_C5_amended_defaults (st : Storage) (fs : DockerFS) (cid : String)
    (cfg : ContainerJson) (hv : st.docker_version = 1)
    (hc : fs.containerConfig cid = some cfg) :
    GetContainerInfo st fs cid = .ok (ContainerInfo.ofJson cid cfg) ∧
    (cfg.State = none → (ContainerInfo.ofJson cid cfg).running = none ∧
        (ContainerInfo.ofJson cid cfg).start_timestamp = none) ∧
    (∀ cb : ConfigBlock, cfg.Config = some cb → cb.Labels = none →
        (ContainerInfo.ofJson cid cfg).config_labels = some none) := by
  refine ⟨by simp [GetContainerInfo, hc, hv], ?_, ?_⟩
  · intro hs
    simp [ContainerInfo.ofJson, hs]
  · intro cb hcb hl
    simp [ContainerInfo.ofJson, hcb, hl]

/-- Witness for the amended C5 at the concrete state `fsC5`. -/
theorem claim_C5_witness :
    stV1.docker_version = 1 ∧ fsC5.containerConfig "c1" = some cfgC5 ∧
    (GetContainerInfo stV1 fsC5 "c1" = .ok (ContainerInfo.ofJson "c1" cfgC5) ∧
     (cfgC5.State = none → (ContainerInfo.ofJson "c1" cfgC5).running = none ∧
         (ContainerInfo.ofJson "c1" cfgC5).start_timestamp = none) ∧
     (∀ cb : ConfigBlock, cfgC5.Config = some cb → cb.Labels = none →
         (ContainerInfo.ofJson "c1" cfgC5).config_labels = some none)) :=
  ⟨rfl, rfl, claim_C5_amended_defaults stV1 fsC5 "c1" cfgC5 rfl rfl⟩

/-! ## Claim C1 -/

/-- A v2 state whose layer parent relation is a self-loop: the parent pointer
file of `sha256:aaa` contains `sha256:aaa` itself. -/
def fsCyc : DockerFS :=
  { containerConfig := fun cid =>
      if cid = "c1" then some { Image := some "sha256:aaa" } else none
    parentFile := fun hm lid =>
      if hm = "sha256" ∧ lid = "aaa" then some "sha256:aaa" else none }

/-- On the cyclic state `fsCyc`, the layer walk consumes any amount of fuel
without finishing: the Python `while` loop runs forever. -/
theorem cycLoop_fuelExhausted : ∀ (fuel : Nat) (acc : List String),
    layerLoop stV2 fsCyc fuel (some "sha256:aaa") acc = .error .fuelExhausted := by
  intro fuel
  induction fuel with
  | zero => intro acc; rfl
  | succ n ih =>
    intro acc
    have h : layerLoop stV2 fsCyc (n + 1) (some "sha256:aaa") acc
        = layerLoop stV2 fsCyc n (some "sha256:aaa") ("sha256:aaa" :: acc) := rfl
    rw [h]
    exact ih _

/-- A v1 state where the chain from container `c1` starts at layer `A`, whose
descriptor names parent `B`, and `graph/B/json` is absent. -/
def fsC1 : DockerFS :=
  { containerConfig := fun cid =>
      if cid = "c1" then some { Image := some "A" } else none
    graphJson := fun lid => if lid = "A" then some { parent := some "B" } else none }

/-- Counterexample to claim C1 as stated: an unresolvable parent does not
always truncate the chain.  On the v1 state `fsC1` the walk reaches layer `B`
whose descriptor file is absent, and the unguarded `open` raises `IOError` —
the call fails instead of returning the truncated chain. -/
theorem claim_C1_counterexample :
    GetOrderedLayers stV1 fsC1 10 "c1" =
      .error (.ioError "/var/lib/docker/graph/B/json") :=
  rfl

/-- Claim C1 (amended): the layer walk behaves as follows.  For version 2 an
absent parent pointer file truncates the chain (the loop `break`s and the
layers collected so far are returned).  For version 1 an absent layer
descriptor file makes the call fail with `IOError` naming
`graph/<layer>/json`.  When the parent relation reachable from the start
contains a cycle the walk does not terminate at all: on the self-loop state
`fsCyc` it exhausts every fuel value. -/
theorem claim_C1_amended_layer_walk :
    (∀ (st : Storage) (fs : DockerFS) (fuel : Nat) (cur hm lid : String)
        (acc : List String),
        st.docker_version = 2 → pySplit cur ':' = [hm, lid] →
        fs.parentFile hm lid = none →
        layerLoop st fs (fuel + 1) (some cur) acc = .ok (acc.reverse ++ [cur])) ∧
    (∀ (st : Storage) (fs : DockerFS) (fuel : Nat) (cur : String)
        (acc : List String),
        st.docker_version = 1 → fs.graphJson cur = none →
        layerLoop st fs (fuel + 1) (some cur) acc =
          .error (.ioError (st.graphJsonPath cur))) ∧
    (∀ fuel : Nat, GetOrderedLayers stV2 fsCyc fuel "c1" = .error .fuelExhausted) := by
  refine ⟨?_, ?_, ?_⟩
  · intro st fs fuel cur hm lid acc hv hs hp
    simp [layerLoop, hv, hs, hp]
  · intro st fs fuel cur acc hv hg
    simp [layerLoop, hv, hg]
  · intro fuel
    have h : GetOrderedLayers stV2 fsCyc fuel "c1"
        = layerLoop stV2 fsCyc fuel (some "sha256:aaa") [] := rfl
    rw [h]
    exact cycLoop_fuelExhausted fuel []

/-- Witness for the amended C1: truncation on a v2 state with no parent file,
the v1 IO error, and fuel exhaustion on the cyclic state. -/
theorem claim_C1_witness :
    layerLoop stV2 emptyFS 3 (some "sha256:abc") [] = .ok ["sha256:abc"] ∧
    layerLoop stV1 emptyFS 3 (some "lay1") [] =
      .error (.ioError "/var/lib/docker/graph/lay1/json") ∧
    GetOrderedLayers stV2 fsCyc 7 "c1" = .error .fuelExhausted :=
  ⟨claim_C1_amended_layer_walk.1 stV2 emptyFS 2 "sha256:abc" "sha256" "abc" [] rfl rfl rfl,
   claim_C1_amended_layer_walk.2.1 stV1 emptyFS 2 "lay1" [] rfl rfl,
   claim_C1_amended_layer_walk.2.2 7⟩

/-! ## Claim C3 -/

/-- A v2 state whose container config names the malformed image id `":b"`
(empty hash-algorithm component). -/
def fsC3 : DockerFS :=
  { containerConfig := fun cid =>
      if cid = "c1" then some { Image := some ":b" } else none }

/-- Counterexample to claim C3 as stated: the identifier `":b"` splits into
two components on `':'` but the first is empty — malformed per the claim —
yet the chain walk raises no error at all: the parent file under the empty
hash directory is absent, so the loop silently truncates and returns the
chain, exactly the outcome the claim rules out. -/
theorem claim_C3_counterexample :
    GetOrderedLayers stV2 fsC3 5 "c1" = .ok [":b"] ∧
    pySplit ":b" ':' = ["", "b"] :=
  ⟨rfl, rfl⟩

/-- Claim C3 (amended): a generation-2 identifier must split into exactly two
components on every `':'` occurrence (so exactly one colon), not merely on
the first, and the components may be empty.  An identifier whose split does
not have exactly two components makes both the chain walk and the layer
lookup fail with the unpacking `ValueError` (the code has no `ParseError`
class; this unhandled exception is the failure the spec taxonomy calls a
parse failure); an identifier with exactly one colon proceeds even when a
component is empty, and an absent parent file then truncates silently. -/
theorem claim_C3_amended_split :
    (∀ (st : Storage) (fs : DockerFS) (fuel : Nat) (cur : String)
        (acc : List String),
        st.docker_version = 2 → (pySplit cur ':').length ≠ 2 →
        layerLoop st fs (fuel + 1) (some cur) acc = .error .valueError) ∧
    (∀ (st : Storage) (fs : DockerFS) (cid : String),
        st.docker_version = 2 → (pySplit cid ':').length ≠ 2 →
        GetLayerInfo st fs cid = .error .valueError) ∧
    (∀ (st : Storage) (fs : DockerFS) (fuel : Nat) (cur hm lid : String),
        st.docker_version = 2 → pySplit cur ':' = [hm, lid] →
        fs.parentFile hm lid = none →
        layerLoop st fs (fuel + 1) (some cur) [] = .ok [cur]) := by
  refine ⟨?_, ?_, ?_⟩
  · intro st fs fuel cur acc hv hl
    rcases h : pySplit cur ':' with _ | ⟨a, _ | ⟨b, _ | ⟨c, rest⟩⟩⟩
    · simp [layerLoop, hv, h]
    · simp [layerLoop, hv, h]
    · exact absurd (by rw [h]; rfl) hl
    · simp [layerLoop, hv, h]
  · intro st fs cid hv hl
    rcases h : pySplit cid ':' with _ | ⟨a, _ | ⟨b, _ | ⟨c, rest⟩⟩⟩
    · simp [GetLayerInfo, hv, h]
    · simp [GetLayerInfo, hv, h]
    · exact absurd (by rw [h]; rfl) hl
    · simp [GetLayerInfo, hv, h]
  · intro st fs fuel cur hm lid hv hs hp
    simp [layerLoop, hv, hs, hp]

/-- Witness for the amended C3: a colon-free id fails the walk, a two-colon
id fails the layer lookup, and the empty-component id `":b"` is accepted and
silently truncated. -/
theorem claim_C3_witness :
    stV2.docker_version = 2 ∧ (pySplit "abc" ':').length ≠ 2 ∧
    layerLoop stV2 emptyFS 4 (some "abc") [] = .error .valueError ∧
    GetLayerInfo stV2 emptyFS "a:b:c" = .error .valueError ∧
    layerLoop stV2 emptyFS 4 (some ":b") [] = .ok [":b"] :=
  ⟨rfl, by decide,
   claim_C3_amended_split.1 stV2 emptyFS 3 "abc" [] rfl (by decide),
   claim_C3_amended_split.2.1 stV2 emptyFS "a:b:c" rfl (by decide),
   claim_C3_amended_split.2.2 stV2 emptyFS 3 ":b" "" "b" rfl rfl rfl⟩

/-! ## Claim C8 -/

/-- The mount point of the C8 scenario. -/
def mpC8 : MountPointInfo := { Source := "/data/x", Destination := "/var/x", Name := "" }

/-- The container of the C8 scenario: config declares
`MountPoints: (m1 -> (Source /data/x, Destination /var/x, Name empty))`. -/
def ciC8 : ContainerInfo :=
  ContainerInfo.ofJson "c1" { MountPoints := some [("m1", mpC8)] }

/-- Counterexample to claim C8 as stated: with engine root
`/var/lib/docker`, the emitted source path is the `abspath`-normalised
`/var/lib/data/x` — `Storage.__init__` normalises `root_directory` — and not
the literal string `/var/lib/docker/../data/x` the claim names (the two
denote the same location but differ as strings, and the mount plan is a
command string). -/
theorem claim_C8_counterexample :
    MakeExtraVolumeCommands stV2 ciC8 "/mnt" =
      [bindMountCommand "/var/lib/data/x" "/mnt/var/x"] ∧
    bindMountCommand "/var/lib/data/x" "/mnt/var/x" ≠
      bindMountCommand "/var/lib/docker/../data/x" "/mnt/var/x" :=
  ⟨rfl, by decide⟩

/-- Claim C8 (amended): the C8 scenario yields exactly one read-only
bind-mount command with source `/var/lib/data/x` (the normalised form of
`/var/lib/docker/../data/x`) and destination `<mountDir>/var/x`; and in
general, for version 2, every declared mount point produces exactly one
read-only bind-mount command whose destination is the slash-stripped declared
destination joined under the mount directory and whose source is the
(possibly synthesised) source path joined under the engine root directory. -/
theorem claim_C8_amended_bind_mounts :
    (∀ md : String, MakeExtraVolumeCommands stV2 ciC8 md =
        [bindMountCommand "/var/lib/data/x" (pyJoin md "var/x")]) ∧
    (∀ (st : Storage) (ci : ContainerInfo) (md : String)
        (mps : List (String × MountPointInfo)),
        st.docker_version = 2 → ci.mount_points = some mps →
        MakeExtraVolumeCommands st ci md = mps.map (fun pr =>
          bindMountCommand (pyJoin st.root_directory (v2SourcePath pr.2))
            (pyJoin md (lstripSlash pr.2.Destination)))) := by
  constructor
  · intro md
    rfl
  · intro st ci md mps hv hmp
    simp [MakeExtraVolumeCommands, hv, hmp]

/-- Witness for the amended C8 at mount directory `/mnt`. -/
theorem claim_C8_witness :
    MakeExtraVolumeCommands stV2 ciC8 "/mnt" =
      [bindMountCommand "/var/lib/data/x" (pyJoin "/mnt" "var/x")] ∧
    stV2.docker_version = 2 ∧ ciC8.mount_points = some [("m1", mpC8)] ∧
    MakeExtraVolumeCommands stV2 ciC8 "/mnt" =
      [bindMountCommand (pyJoin stV2.root_directory (v2SourcePath mpC8))
        (pyJoin "/mnt" (lstripSlash mpC8.Destination))] :=
  ⟨claim_C8_amended_bind_mounts.1 "/mnt", rfl, rfl,
   claim_C8_amended_bind_mounts.2 stV2 ciC8 "/mnt" [("m1", mpC8)] rfl rfl⟩

/-! ## Claim C9 -/

/-- Claim C9: for a generation-2 mount point with empty `Source`, the
bind-mount source is synthesised from the volume `Name` under the fixed
convention `<root>/docker/volumes/<name>/_data`; first conjunct: concretely
for `Name = "vol1"` the source is `<root>/docker/volumes/vol1/_data`; second
conjunct: for every mount point whose slash-stripped source is empty, the
docker-root-relative source path is `docker`, `volumes`, `<Name>`, `_data`
joined in order (then joined under the engine root by the planner). -/
theorem claim_C9_named_volume :
    (∀ (st : Storage) (ci : ContainerInfo) (md key dst : String),
        st.docker_version = 2 →
        ci.mount_points =
          some [(key, { Source := "", Destination := dst, Name := "vol1" })] →
        MakeExtraVolumeCommands st ci md =
          [bindMountCommand (pyJoin st.root_directory "docker/volumes/vol1/_data")
            (pyJoin md (lstripSlash dst))]) ∧
    (∀ si : MountPointInfo, lstripSlash si.Source = "" →
        v2SourcePath si = pyJoin (pyJoin (pyJoin "docker" "volumes") si.Name) "_data") := by
  constructor
  · intro st ci md key dst hv hmp
    simp [MakeExtraVolumeCommands, hv, hmp]
    rfl
  · intro si hs
    simp [v2SourcePath, hs, pyJoinList]

/-- The named-volume mount point of the C9 witness. -/
def mpC9 : MountPointInfo := { Source := "", Destination := "/var/x", Name := "vol1" }

/-- The container of the C9 witness. -/
def ciC9 : ContainerInfo :=
  ContainerInfo.ofJson "c1" { MountPoints := some [("m1", mpC9)] }

/-- Witness for C9 at engine root `/var/lib` and mount directory `/mnt`. -/
theorem claim_C9_witness :
    stV2.docker_version = 2 ∧ ciC9.mount_points = some [("m1", mpC9)] ∧
    MakeExtraVolumeCommands stV2 ciC9 "/mnt" =
      [bindMountCommand (pyJoin stV2.root_directory "docker/volumes/vol1/_data")
        (pyJoin "/mnt" (lstripSlash "/var/x"))] ∧
    lstripSlash mpC9.Source = "" ∧
    v2SourcePath mpC9 = pyJoin (pyJoin (pyJoin "docker" "volumes") mpC9.Name) "_data" :=
  ⟨rfl, rfl, claim_C9_named_volume.1 stV2 ciC9 "/mnt" "m1" "/var/x" rfl rfl, rfl,
   claim_C9_named_volume.2 mpC9 rfl⟩

/-! ## Claim C7 -/

/-- A running container config with a start timestamp, used by the C7
fixtures. -/
def cfgRunA : ContainerJson :=
  { Name := some "/a"
    State := some { Running := some true, StartedAt := some "2016-01-02T00:00:00Z" } }

/-- A config that parses but carries no `State` block, so the loaded record
never gets `running` or `start_timestamp` attributes. -/
def cfgNoState : ContainerJson := { Name := some "/c" }

/-- A v1 state whose catalog loads successfully but contains one record
without `State` attributes. -/
def fsC7bad : DockerFS :=
  { containerDirs := ["a", "c"]
    containerConfig := fun cid =>
      if cid = "a" then some cfgRunA else
      if cid = "c" then some cfgNoState else none }

/-- Counterexample to claim C7 as stated: the claim quantifies over every
on-disk state, but on `fsC7bad` the full catalog loads successfully (first
conjunct) while `GetContainersList` with `only_running` raises
`AttributeError`: the sort key lambda reads the `start_timestamp` attribute,
which was never assigned for the record whose config has no `State` block —
the call fails instead of returning the running records sorted. -/
theorem claim_C7_counterexample :
    GetAllContainersInfo stV1 fsC7bad =
      .ok [ContainerInfo.ofJson "a" cfgRunA, ContainerInfo.ofJson "c" cfgNoState] ∧
    GetContainersList stV1 fsC7bad true =
      .error (.attributeError "start_timestamp") :=
  ⟨rfl, rfl⟩

/-- Claim C7 (amended): the claimed behaviour holds only for states where
every loaded record carries assigned `start_timestamp` and `running`
attributes (a record whose config lacks a `State` block instead makes the
call raise `AttributeError` at the sort key, as the counterexample shows).
Under that condition, `GetContainersList only_running:=true` succeeds and
returns exactly the records of the full catalog whose running flag is true
(as a multiset — the claim simultaneously requires reordering by
`startedAt`, so "subsequence" is read as a reordered sub-collection), sorted
ascending by the `start_timestamp` key. -/
theorem claim_C7_running_sorted (st : Storage) (fs : DockerFS)
    (all : List ContainerInfo)
    (hall : GetAllContainersInfo st fs = .ok all)
    (hstart : ∀ ci ∈ all, ci.start_timestamp.isSome = true)
    (hrun : ∀ ci ∈ all, ci.running.isSome = true) :
    ∃ l, GetContainersList st fs true = .ok l ∧
      l.Perm (all.filter (fun ci => ci.running.getD false)) ∧
      List.Sorted startRel l := by
  have hperm : (List.insertionSort startRel all).Perm all :=
    List.perm_insertionSort startRel all
  have hrun2 : ∀ ci ∈ List.insertionSort startRel all, ci.running.isSome = true :=
    fun ci hci => hrun ci (hperm.mem_iff.mp hci)
  refine ⟨(List.insertionSort startRel all).filter (fun ci => ci.running.getD false),
    ?_, ?_, ?_⟩
  · simp only [GetContainersList, hall, exceptBind_ok, checkStarts_ok hstart,
      if_pos rfl]
    simpa using filterRunning_ok hrun2
  · exact hperm.filter _
  · exact (List.sorted_insertionSort startRel all).filter _

/-- Second container config of the C7 witness: stopped, with an earlier
start stamp than `cfgRunA`. -/
def cfgRunB : ContainerJson :=
  { Name := some "/b"
    State := some { Running := some false, StartedAt := some "2016-01-01T00:00:00Z" } }

/-- The two-container v1 state of the C7 witness. -/
def fsC7 : DockerFS :=
  { containerDirs := ["a", "b"]
    containerConfig := fun cid =>
      if cid = "a" then some cfgRunA else if cid = "b" then some cfgRunB else none }

/-- The full catalog of `fsC7`. -/
def allC7 : List ContainerInfo :=
  [ContainerInfo.ofJson "a" cfgRunA, ContainerInfo.ofJson "b" cfgRunB]

/-- Witness for C7 at the two-container state `fsC7`. -/
theorem claim_C7_witness :
    GetAllContainersInfo stV1 fsC7 = .ok allC7 ∧
    (∀ ci ∈ allC7, ci.start_timestamp.isSome = true) ∧
    (∀ ci ∈ allC7, ci.running.isSome = true) ∧
    (∃ l, GetContainersList stV1 fsC7 true = .ok l ∧
      l.Perm (allC7.filter (fun ci => ci.running.getD false)) ∧
      List.Sorted startRel l) :=
  ⟨rfl, by decide, by decide,
   claim_C7_running_sorted stV1 fsC7 allC7 rfl (by decide) (by decide)⟩

end DockerExplorer
